import Mathlib

/-!
Shallow embedding of `src/streamlit_vin_decoder.py` (a Streamlit VIN decoder)
and proofs of its specified behaviour.

The program has two functions:

* `get_vin(vin, username)`: validates the VIN (length 17, then the regex
  `^[A-HJ-NPR-Z0-9]{17}$`), calls `nhtsa_api_call.get_vehicle_info(vin)`
  inside a `try`/`except`, and renders either the vehicle details (when
  year, make and model are all truthy and not `None`), an "incomplete data"
  warning, or an error message.
* `main()`: reads the VIN text field (`.strip().upper()`), and on the
  button click either calls `get_vin` or, when the stripped VIN is empty,
  shows a "please enter a VIN" error.

The external lookup `nhtsa_api_call.get_vehicle_info` is a parameter of the
embedding (`Lookup`): it either returns a triple of optional strings
(`Python None` is `Option.none`) or raises an exception (`Except.error`).
Side effects are reified: the sequence of messages written to the
`status_area` placeholder, the number of lookup invocations, and the
rendered vehicle fields are recorded in a `GetVinResult`.
-/

namespace VinDecoder

/-- Characters accepted by the regex character class `[A-HJ-NPR-Z0-9]` on
line 36 of `streamlit_vin_decoder.py`: uppercase letters without I, O, Q,
and digits. -/
def allowedChar (c : Char) : Bool :=
  ('A' ≤ c && c ≤ 'H') || ('J' ≤ c && c ≤ 'N') || c == 'P' ||
    ('R' ≤ c && c ≤ 'Z') || ('0' ≤ c && c ≤ '9')

/-- Truth value of `re.match(r'^[A-HJ-NPR-Z0-9]{17}$', vin)`: the whole
string is exactly 17 characters of the allowed class.  (The Python `$` may
also match before a trailing newline, but under the length-17 guard in
`get_vin` a string with a trailing newline has only 16 preceding
characters, so it does not match there either; the two readings agree on
every string this branch sees.) -/
def vinRegexMatch (s : String) : Bool :=
  s.length == 17 && s.data.all allowedChar

/-- One write to the `status_area` placeholder or the columns of the page. -/
inductive Status where
  /-- The error `VIN must be exactly 17 characters long.` (line 34). -/
  | errorLength : Status
  /-- The error `VIN must be alpha-numeric and cannot include letters I, O, Q.` (line 37). -/
  | errorChars : Status
  /-- The info message `Decoding VIN...` (line 40). -/
  | infoDecoding : Status
  /-- The warning `Incomplete vehicle data returned. ...` (line 46). -/
  | warnIncomplete : Status
  /-- The success message `VIN decoded successfully!` (line 48). -/
  | success : Status
  /-- The error `An error occurred while decoding the VIN: {e}` (line 62). -/
  | errorException (e : String) : Status
  deriving DecidableEq, Repr

/-- Response of the external lookup: the triple `(year, make, model)`
unpacked on line 43, each field possibly Python `None`. -/
abbrev VehicleInfo := Option String × Option String × Option String

/-- Model of `nhtsa_api_call.get_vehicle_info`: returns a `VehicleInfo`
triple or raises an exception carrying a message. -/
abbrev Lookup := String → Except String VehicleInfo

/-- Python truthiness of an optional string, as tested by
`all([year, make, model])` on line 45: `None` and the empty string are
falsy, every other string is truthy. -/
def pyTruthy : Option String → Bool
  | none => false
  | some s => !s.isEmpty

/-- Observable outcome of one `get_vin` call: the successive writes to
`status_area`, the number of calls to the external lookup, and the
`(make, model, year)` fields rendered in the details column (lines 57-59),
or `none` when no vehicle field is rendered. -/
structure GetVinResult where
  statuses : List Status
  lookupCalls : Nat
  rendered : Option (String × String × String)
  deriving DecidableEq, Repr

/-- Embedding of `get_vin(vin, username)` (lines 25-62), with the external
lookup as the `lookup` parameter.  Mirrors the source: length check first,
then the regex check, then the `try` block calling the lookup once; an
exception from the lookup is caught and reported (line 62); the response is
rejected as incomplete when `not all([year, make, model]) or
any([v is None for v in [year, make, model]])` (line 45), otherwise make,
model and model year are rendered. -/
def get_vin (lookup : Lookup) (vin username : String) : GetVinResult :=
  if vin.length ≠ 17 then
    { statuses := [.errorLength], lookupCalls := 0, rendered := none }
  else if !vinRegexMatch vin then
    { statuses := [.errorChars], lookupCalls := 0, rendered := none }
  else
    match lookup vin with
    | .error e =>
        { statuses := [.infoDecoding, .errorException e],
          lookupCalls := 1, rendered := none }
    | .ok (year, make, model) =>
        if !(pyTruthy year && pyTruthy make && pyTruthy model)
            || (year == none || make == none || model == none) then
          { statuses := [.infoDecoding, .warnIncomplete],
            lookupCalls := 1, rendered := none }
        else
          { statuses := [.infoDecoding, .success], lookupCalls := 1,
            rendered := some (make.getD "", model.getD "", year.getD "") }

/-- ASCII whitespace characters removed by Python `str.strip()` (line 86).
(Python also strips some further Unicode space characters; the ASCII
fragment is what the VIN text field can produce.) -/
def pyIsSpace (c : Char) : Bool :=
  c == ' ' || c == '\t' || c == '\n' || c == '\x0d' || c == '\x0b' || c == '\x0c'

/-- Python `str.strip()`: drop leading and trailing whitespace. -/
def pyStrip (s : String) : String :=
  ⟨((s.data.dropWhile pyIsSpace).reverse.dropWhile pyIsSpace).reverse⟩

/-- Python `str.upper()` on one character (ASCII fragment, which covers the
VIN alphabet): map a lowercase letter to its uppercase form. -/
def pyUpperChar (c : Char) : Char :=
  if 'a' ≤ c && c ≤ 'z' then Char.ofNat (c.toNat - 32) else c

/-- Python `str.upper()` (ASCII fragment). -/
def pyUpper (s : String) : String :=
  ⟨s.data.map pyUpperChar⟩

/-- Normalisation applied on line 86:
`st.text_input("Enter VIN:", max_chars=17).strip().upper()`. -/
def mainVinNormalize (raw : String) : String :=
  pyUpper (pyStrip raw)

/-- Outcome of a click of the `Decode VIN` button in `main` (lines 87-91):
either the empty-VIN error of line 91, or a `get_vin` run. -/
inductive MainOutcome where
  /-- The error `Please enter a VIN before fetching the vehicle information, ...` (line 91). -/
  | emptyVinError : MainOutcome
  /-- `get_vin` was called and produced `r` (line 89). -/
  | ran (r : GetVinResult) : MainOutcome
  deriving DecidableEq, Repr

/-- Embedding of the button handler in `main` (lines 86-91): normalise the
raw text-field value, then call `get_vin` when the result is truthy
(non-empty), otherwise show the empty-VIN error. -/
def mainDecode (lookup : Lookup) (rawVin name : String) : MainOutcome :=
  if mainVinNormalize rawVin ≠ "" then
    .ran (get_vin lookup (mainVinNormalize rawVin) name)
  else .emptyVinError

/-- Number of external lookup invocations behind a `MainOutcome`. -/
def mainLookupCalls : MainOutcome → Nat
  | .emptyVinError => 0
  | .ran r => r.lookupCalls

/-! Concrete lookup services used to instantiate the theorems below. -/

/-- A lookup that answers every VIN with a complete triple. -/
def lookupComplete : Lookup := fun _ => .ok (some "2003", some "Honda", some "Accord")

/-- A lookup whose `year` field is Python `None`. -/
def lookupMissingYear : Lookup := fun _ => .ok (none, some "Honda", some "Accord")

/-- A lookup whose `year` field is the empty string. -/
def lookupEmptyYear : Lookup := fun _ => .ok (some "", some "Honda", some "Accord")

/-- A lookup that raises an exception on every VIN. -/
def lookupBoom : Lookup := fun _ => .error "boom"

/-! Helper lemmas about `get_vin`. -/

lemma vinRegexMatch_eq_true {vin : String} (hlen : vin.length = 17)
    (hchars : ∀ c ∈ vin.data, allowedChar c = true) : vinRegexMatch vin = true := by
  simp only [vinRegexMatch, hlen, beq_self_eq_true, Bool.true_and, List.all_eq_true]
  exact hchars

lemma get_vin_length_ne {lookup : Lookup} {vin username : String} (hlen : vin.length ≠ 17) :
    get_vin lookup vin username =
      { statuses := [.errorLength], lookupCalls := 0, rendered := none } := by
  unfold get_vin
  rw [if_pos hlen]

lemma get_vin_bad_char {lookup : Lookup} {vin username : String} (hlen : vin.length = 17)
    (hbad : ∃ c ∈ vin.data, allowedChar c = false) :
    get_vin lookup vin username =
      { statuses := [.errorChars], lookupCalls := 0, rendered := none } := by
  obtain ⟨c, hc, hcf⟩ := hbad
  have h2 : vinRegexMatch vin = false := by
    simp only [vinRegexMatch, Bool.and_eq_false_iff, List.all_eq_false]
    exact Or.inr ⟨c, hc, by simp [hcf]⟩
  unfold get_vin
  rw [if_neg (by simp [hlen]), if_pos (by simp [h2])]

/-- On a VIN that passes both format checks, `get_vin` proceeds to the
lookup call. -/
lemma get_vin_valid {lookup : Lookup} {vin username : String}
    (hlen : vin.length = 17) (hchars : ∀ c ∈ vin.data, allowedChar c = true) :
    get_vin lookup vin username =
      match lookup vin with
      | .error e =>
          { statuses := [.infoDecoding, .errorException e],
            lookupCalls := 1, rendered := none }
      | .ok (year, make, model) =>
          if !(pyTruthy year && pyTruthy make && pyTruthy model)
              || (year == none || make == none || model == none) then
            { statuses := [.infoDecoding, .warnIncomplete],
              lookupCalls := 1, rendered := none }
          else
            { statuses := [.infoDecoding, .success], lookupCalls := 1,
              rendered := some (make.getD "", model.getD "", year.getD "") } := by
  unfold get_vin
  rw [if_neg (by simp [hlen]), if_neg (by simp [vinRegexMatch_eq_true hlen hchars])]

lemma pyTruthy_beq_none {o : Option String} (h : pyTruthy o = true) : (o == none) = false := by
  cases o with
  | none => simp [pyTruthy] at h
  | some s => rfl

lemma get_vin_error {lookup : Lookup} {vin username e : String}
    (hlen : vin.length = 17) (hchars : ∀ c ∈ vin.data, allowedChar c = true)
    (hlv : lookup vin = .error e) :
    get_vin lookup vin username =
      { statuses := [.infoDecoding, .errorException e],
        lookupCalls := 1, rendered := none } := by
  rw [get_vin_valid hlen hchars, hlv]

lemma get_vin_ok_complete {lookup : Lookup} {vin username : String}
    {year make model : Option String}
    (hlen : vin.length = 17) (hchars : ∀ c ∈ vin.data, allowedChar c = true)
    (hlv : lookup vin = .ok (year, make, model))
    (hy : pyTruthy year = true) (hm : pyTruthy make = true) (hmo : pyTruthy model = true) :
    get_vin lookup vin username =
      { statuses := [.infoDecoding, .success], lookupCalls := 1,
        rendered := some (make.getD "", model.getD "", year.getD "") } := by
  rw [get_vin_valid hlen hchars, hlv]
  simp [hy, hm, hmo, pyTruthy_beq_none hy, pyTruthy_beq_none hm, pyTruthy_beq_none hmo]

lemma get_vin_ok_incomplete {lookup : Lookup} {vin username : String}
    {year make model : Option String}
    (hlen : vin.length = 17) (hchars : ∀ c ∈ vin.data, allowedChar c = true)
    (hlv : lookup vin = .ok (year, make, model))
    (h : ¬(pyTruthy year = true ∧ pyTruthy make = true ∧ pyTruthy model = true)) :
    get_vin lookup vin username =
      { statuses := [.infoDecoding, .warnIncomplete],
        lookupCalls := 1, rendered := none } := by
  rw [get_vin_valid hlen hchars, hlv]
  simp only [not_and_or, Bool.not_eq_true] at h
  rcases h with h | h | h <;> simp [h]

/-! Helper lemmas about the normalisation in `main`. -/

lemma data_append (s t : String) : (s ++ t).data = s.data ++ t.data := rfl

lemma dropWhile_append_of_all {p : Char → Bool} {l1 l2 : List Char}
    (h : ∀ c ∈ l1, p c = true) :
    List.dropWhile p (l1 ++ l2) = List.dropWhile p l2 := by
  induction l1 with
  | nil => rfl
  | cons a t ih =>
      rw [List.cons_append, List.dropWhile_cons, if_pos (h a (List.mem_cons_self a t))]
      exact ih fun c hc => h c (List.mem_cons_of_mem a hc)

lemma dropWhile_eq_nil_of_all {p : Char → Bool} {l : List Char}
    (h : ∀ c ∈ l, p c = true) : List.dropWhile p l = [] := by
  have h2 := @dropWhile_append_of_all p l [] h
  simpa using h2

lemma dropWhile_eq_self_of_all_false {p : Char → Bool} {l : List Char}
    (h : ∀ c ∈ l, p c = false) : List.dropWhile p l = l := by
  cases l with
  | nil => rfl
  | cons a t => rw [List.dropWhile_cons, if_neg (by simp [h a (List.mem_cons_self a t)])]

/-- A character whose Python-uppercase form lies in the VIN alphabet is not
whitespace, so `strip()` never removes part of such a VIN. -/
lemma pyIsSpace_eq_false_of_allowed {c : Char} (h : allowedChar (pyUpperChar c) = true) :
    pyIsSpace c = false := by
  by_contra hc
  rw [Bool.not_eq_false] at hc
  simp only [pyIsSpace, Bool.or_eq_true, beq_iff_eq] at hc
  rcases hc with ((((rfl | rfl) | rfl) | rfl) | rfl) | rfl <;> exact absurd h (by decide)

/-- Python `strip()` on a string made of leading whitespace, a whitespace-free
core, and trailing whitespace returns exactly the core. -/
lemma pyStrip_append (pre core post : String)
    (hpre : ∀ c ∈ pre.data, pyIsSpace c = true)
    (hpost : ∀ c ∈ post.data, pyIsSpace c = true)
    (hcore : ∀ c ∈ core.data, pyIsSpace c = false) :
    pyStrip (pre ++ core ++ post) = core := by
  have hd : (pre ++ core ++ post).data = pre.data ++ (core.data ++ post.data) := by
    rw [data_append, data_append, List.append_assoc]
  unfold pyStrip
  rw [hd, dropWhile_append_of_all hpre]
  cases hc : core.data with
  | nil =>
      rw [List.nil_append, dropWhile_eq_nil_of_all hpost]
      cases core
      simp_all
  | cons a t =>
      rw [hc] at hcore
      have ha : pyIsSpace a = false := hcore a (List.mem_cons_self a t)
      have h1 : List.dropWhile pyIsSpace ((a :: t) ++ post.data) = a :: (t ++ post.data) := by
        rw [List.cons_append, List.dropWhile_cons, if_neg (by simp [ha])]
      rw [h1]
      have h2 : (a :: (t ++ post.data)).reverse
          = post.data.reverse ++ (t.reverse ++ [a]) := by
        rw [List.reverse_cons, List.reverse_append, List.append_assoc]
      rw [h2, dropWhile_append_of_all fun c hcm => hpost c (List.mem_reverse.mp hcm)]
      have h3 : List.dropWhile pyIsSpace (t.reverse ++ [a]) = t.reverse ++ [a] := by
        apply dropWhile_eq_self_of_all_false
        intro c hcm
        rcases List.mem_append.mp hcm with hcm | hcm
        · exact hcore c (List.mem_cons_of_mem a (List.mem_reverse.mp hcm))
        · rw [List.mem_singleton.mp hcm]
          exact ha
      rw [h3, List.reverse_append, List.reverse_reverse]
      cases core
      simp_all

/-- On a valid VIN, `get_vin` rejects neither format check and invokes the
lookup exactly once, whatever the lookup answers. -/
lemma get_vin_accepts {lookup : Lookup} {vin username : String}
    (hlen : vin.length = 17) (hchars : ∀ c ∈ vin.data, allowedChar c = true) :
    Status.errorLength ∉ (get_vin lookup vin username).statuses ∧
    Status.errorChars ∉ (get_vin lookup vin username).statuses ∧
    (get_vin lookup vin username).lookupCalls = 1 := by
  rw [get_vin_valid hlen hchars]
  cases hlv : lookup vin with
  | error e => simp
  | ok t =>
      obtain ⟨year, make, model⟩ := t
      dsimp only
      split <;> simp

lemma pyUpper_length (s : String) : (pyUpper s).length = s.length :=
  List.length_map s.data pyUpperChar

lemma pyUpper_data (s : String) : (pyUpper s).data = s.data.map pyUpperChar := rfl

/-- Normalisation in `main` of a string made of whitespace padding around a
core whose uppercase form is in the VIN alphabet: the padding is stripped
and the core uppercased. -/
lemma mainVinNormalize_append (pre core post : String)
    (hpre : ∀ c ∈ pre.data, pyIsSpace c = true)
    (hpost : ∀ c ∈ post.data, pyIsSpace c = true)
    (hcore : ∀ c ∈ core.data, allowedChar (pyUpperChar c) = true) :
    mainVinNormalize (pre ++ core ++ post) = pyUpper core := by
  unfold mainVinNormalize
  rw [pyStrip_append pre core post hpre hpost
    fun c hc => pyIsSpace_eq_false_of_allowed (hcore c hc)]

lemma pyUpper_allowed {core : String}
    (hcore : ∀ c ∈ core.data, allowedChar (pyUpperChar c) = true) :
    ∀ c ∈ (pyUpper core).data, allowedChar c = true := by
  intro c hc
  rw [pyUpper_data] at hc
  obtain ⟨d, hd, rfl⟩ := List.mem_map.mp hc
  exact hcore d hd

lemma ne_empty_of_length {s : String} (h : s.length = 17) : s ≠ "" := by
  intro he
  rw [he] at h
  exact absurd h (by decide)

lemma mainDecode_eq_ran {lookup : Lookup} {raw name : String}
    (h : mainVinNormalize raw ≠ "") :
    mainDecode lookup raw name = .ran (get_vin lookup (mainVinNormalize raw) name) := by
  unfold mainDecode
  rw [if_pos h]

/-! Claim theorems. -/

/-- C1: for every 17-character string whose characters are all in the
allowed alphabet A-H, J-N, P, R-Z, 0-9, `get_vin` accepts the VIN (no
format error is shown) and invokes the external lookup
`nhtsa_api_call.get_vehicle_info` exactly once. -/
theorem c1_valid_vin_accepted (lookup : Lookup) (vin username : String)
    (hlen : vin.length = 17) (hchars : ∀ c ∈ vin.data, allowedChar c = true) :
    Status.errorLength ∉ (get_vin lookup vin username).statuses ∧
    Status.errorChars ∉ (get_vin lookup vin username).statuses ∧
    (get_vin lookup vin username).lookupCalls = 1 :=
  get_vin_accepts hlen hchars

/-- Witness for C1 at the spec's example VIN `1HGCM82633A004352`. -/
theorem c1_witness :
    ("1HGCM82633A004352" : String).length = 17 ∧
    Status.errorLength ∉ (get_vin lookupComplete "1HGCM82633A004352" "ann").statuses ∧
    Status.errorChars ∉ (get_vin lookupComplete "1HGCM82633A004352" "ann").statuses ∧
    (get_vin lookupComplete "1HGCM82633A004352" "ann").lookupCalls = 1 :=
  ⟨by decide,
    c1_valid_vin_accepted lookupComplete "1HGCM82633A004352" "ann" (by decide) (by decide)⟩

/-- C2: for every string whose length is not 17, `get_vin` rejects it with
the wrong-length format error and returns with the lookup never invoked and
no vehicle field rendered. -/
theorem c2_wrong_length_rejected (lookup : Lookup) (vin username : String)
    (hlen : vin.length ≠ 17) :
    get_vin lookup vin username =
      { statuses := [.errorLength], lookupCalls := 0, rendered := none } :=
  get_vin_length_ne hlen

/-- Witness for C2 at the spec's 16-character example `1HGCM82633A00435`. -/
theorem c2_witness :
    get_vin lookupComplete "1HGCM82633A00435" "ann" =
      { statuses := [.errorLength], lookupCalls := 0, rendered := none } :=
  c2_wrong_length_rejected lookupComplete "1HGCM82633A00435" "ann" (by decide)

/-- C3: the letters I, O, Q are outside the allowed alphabet, and every
17-character string containing a character outside the allowed alphabet is
rejected with the disallowed-character format error, with the lookup never
invoked and no vehicle field rendered. -/
theorem c3_bad_char_rejected (lookup : Lookup) (vin username : String)
    (hlen : vin.length = 17) (hbad : ∃ c ∈ vin.data, allowedChar c = false) :
    allowedChar 'I' = false ∧ allowedChar 'O' = false ∧ allowedChar 'Q' = false ∧
    get_vin lookup vin username =
      { statuses := [.errorChars], lookupCalls := 0, rendered := none } :=
  ⟨by decide, by decide, by decide, get_vin_bad_char hlen hbad⟩

/-- Witness for C3 at a 17-character string containing `Q`. -/
theorem c3_witness :
    allowedChar 'I' = false ∧ allowedChar 'O' = false ∧ allowedChar 'Q' = false ∧
    get_vin lookupComplete "QHGCM82633A004352" "ann" =
      { statuses := [.errorChars], lookupCalls := 0, rendered := none } :=
  c3_bad_char_rejected lookupComplete "QHGCM82633A004352" "ann" (by decide)
    ⟨'Q', by decide, by decide⟩

/-- C4: when the lookup returns a triple `(year, make, model)` on a valid
VIN, the vehicle details are displayed if and only if all three fields are
present (truthy): if all three are non-empty the display renders make,
model and year and reports success; if any is missing the display shows the
incomplete-data warning and renders no field. -/
theorem c4_details_iff_complete (lookup : Lookup) (vin username : String)
    (year make model : Option String)
    (hlen : vin.length = 17) (hchars : ∀ c ∈ vin.data, allowedChar c = true)
    (hlv : lookup vin = .ok (year, make, model)) :
    (pyTruthy year = true ∧ pyTruthy make = true ∧ pyTruthy model = true →
      get_vin lookup vin username =
        { statuses := [.infoDecoding, .success], lookupCalls := 1,
          rendered := some (make.getD "", model.getD "", year.getD "") }) ∧
    (¬(pyTruthy year = true ∧ pyTruthy make = true ∧ pyTruthy model = true) →
      get_vin lookup vin username =
        { statuses := [.infoDecoding, .warnIncomplete],
          lookupCalls := 1, rendered := none }) :=
  ⟨fun ⟨hy, hm, hmo⟩ => get_vin_ok_complete hlen hchars hlv hy hm hmo,
    fun h => get_vin_ok_incomplete hlen hchars hlv h⟩

/-- Witness for C4: a complete triple renders the three fields; a triple
with a missing year yields the incomplete-data warning and no field. -/
theorem c4_witness :
    get_vin lookupComplete "1HGCM82633A004352" "ann" =
      { statuses := [.infoDecoding, .success], lookupCalls := 1,
        rendered := some ("Honda", "Accord", "2003") } ∧
    get_vin lookupMissingYear "1HGCM82633A004352" "ann" =
      { statuses := [.infoDecoding, .warnIncomplete],
        lookupCalls := 1, rendered := none } :=
  ⟨(c4_details_iff_complete lookupComplete "1HGCM82633A004352" "ann"
      (some "2003") (some "Honda") (some "Accord") (by decide) (by decide) rfl).1
      ⟨by decide, by decide, by decide⟩,
    (c4_details_iff_complete lookupMissingYear "1HGCM82633A004352" "ann"
      none (some "Honda") (some "Accord") (by decide) (by decide) rfl).2
      (by decide)⟩

/-- C5: if the lookup raises an exception on a valid VIN, `get_vin` reports
the failure message as an error, invokes the lookup at most once (exactly
once, with no retry and no fallback), and renders no vehicle field. -/
theorem c5_exception_reported (lookup : Lookup) (vin username e : String)
    (hlen : vin.length = 17) (hchars : ∀ c ∈ vin.data, allowedChar c = true)
    (hlv : lookup vin = .error e) :
    get_vin lookup vin username =
      { statuses := [.infoDecoding, .errorException e],
        lookupCalls := 1, rendered := none } ∧
    (get_vin lookup vin username).lookupCalls ≤ 1 :=
  ⟨get_vin_error hlen hchars hlv, by rw [get_vin_error hlen hchars hlv]⟩

/-- Witness for C5 at a lookup that always raises `boom`. -/
theorem c5_witness :
    get_vin lookupBoom "1HGCM82633A004352" "ann" =
      { statuses := [.infoDecoding, .errorException "boom"],
        lookupCalls := 1, rendered := none } ∧
    (get_vin lookupBoom "1HGCM82633A004352" "ann").lookupCalls ≤ 1 :=
  c5_exception_reported lookupBoom "1HGCM82633A004352" "ann" "boom"
    (by decide) (by decide) rfl

/-- C6: for every string input and every behaviour of the lookup,
`get_vin` terminates normally with a result (the `try`/`except` catches
lookup exceptions), and every path — format error, incomplete data, lookup
exception or success — ends in at least one rendered message. -/
theorem c6_no_crash (lookup : Lookup) (vin username : String) :
    (get_vin lookup vin username).statuses ≠ [] := by
  unfold get_vin
  split
  · simp
  · split
    · simp
    · cases lookup vin with
      | error e => simp
      | ok t =>
          obtain ⟨year, make, model⟩ := t
          dsimp only
          split <;> simp

/-- C7: validation checks length before alphabet: every string of length
not 17 gets the wrong-length error (even when it also contains disallowed
characters), and the disallowed-character error can only be emitted for
strings of length exactly 17. -/
theorem c7_length_before_alphabet (lookup : Lookup) (vin username : String) :
    (vin.length ≠ 17 → (get_vin lookup vin username).statuses = [.errorLength]) ∧
    (Status.errorChars ∈ (get_vin lookup vin username).statuses → vin.length = 17) := by
  constructor
  · intro hlen
    rw [get_vin_length_ne hlen]
  · intro hmem
    by_contra hlen
    rw [get_vin_length_ne hlen] at hmem
    simp at hmem

/-- Witness for C7 at a 16-character string that also contains `Q`: the
wrong-length error is the one emitted. -/
theorem c7_witness :
    (get_vin lookupComplete "QHGCM82633A00435" "ann").statuses = [.errorLength] :=
  (c7_length_before_alphabet lookupComplete "QHGCM82633A00435" "ann").1 (by decide)

/-- C8: a lookup field equal to the empty string counts as missing, not
only `None`: the vehicle details are rendered if and only if year, make and
model are all truthy, and the empty string is falsy. -/
theorem c8_empty_field_missing (lookup : Lookup) (vin username : String)
    (year make model : Option String)
    (hlen : vin.length = 17) (hchars : ∀ c ∈ vin.data, allowedChar c = true)
    (hlv : lookup vin = .ok (year, make, model)) :
    pyTruthy (some "") = false ∧
    (get_vin lookup vin username).rendered.isSome =
      (pyTruthy year && pyTruthy make && pyTruthy model) := by
  refine ⟨by decide, ?_⟩
  by_cases h : pyTruthy year = true ∧ pyTruthy make = true ∧ pyTruthy model = true
  · obtain ⟨hy, hm, hmo⟩ := h
    rw [get_vin_ok_complete hlen hchars hlv hy hm hmo, hy, hm, hmo]
    rfl
  · rw [get_vin_ok_incomplete hlen hchars hlv h]
    simp only [not_and_or, Bool.not_eq_true] at h
    rcases h with h | h | h <;> simp [h]

/-- Witness for C8 at the triple `("", "Honda", "Accord")`: nothing is
rendered because the empty year is falsy. -/
theorem c8_witness :
    pyTruthy (some "") = false ∧
    (get_vin lookupEmptyYear "1HGCM82633A004352" "ann").rendered.isSome =
      (pyTruthy (some "") && pyTruthy (some "Honda") && pyTruthy (some "Accord")) :=
  c8_empty_field_missing lookupEmptyYear "1HGCM82633A004352" "ann"
    (some "") (some "Honda") (some "Accord") (by decide) (by decide) rfl

/-- C9: the VIN entered in the text field is normalised — stripped of
surrounding whitespace and uppercased — before validation: for every input
made of a core whose uppercase form is a valid VIN, surrounded by
whitespace, `main` passes the normalised 17-character uppercase VIN to
`get_vin` and it is accepted with exactly one lookup invocation. -/
theorem c9_normalized_before_validation (lookup : Lookup) (name pre core post : String)
    (hpre : ∀ c ∈ pre.data, pyIsSpace c = true)
    (hpost : ∀ c ∈ post.data, pyIsSpace c = true)
    (hlen : core.length = 17)
    (hcore : ∀ c ∈ core.data, allowedChar (pyUpperChar c) = true) :
    mainDecode lookup (pre ++ core ++ post) name =
      .ran (get_vin lookup (pyUpper core) name) ∧
    Status.errorLength ∉ (get_vin lookup (pyUpper core) name).statuses ∧
    Status.errorChars ∉ (get_vin lookup (pyUpper core) name).statuses ∧
    (get_vin lookup (pyUpper core) name).lookupCalls = 1 := by
  have hnorm := mainVinNormalize_append pre core post hpre hpost hcore
  have hulen : (pyUpper core).length = 17 := by
    rw [pyUpper_length]
    exact hlen
  refine ⟨?_, get_vin_accepts hulen (pyUpper_allowed hcore)⟩
  rw [mainDecode_eq_ran (hnorm ▸ ne_empty_of_length hulen), hnorm]

/-- Witness for C9 at a lowercase VIN padded with spaces. -/
theorem c9_witness :
    mainDecode lookupComplete ("  " ++ "1hgcm82633a004352" ++ " ") "ann" =
      .ran (get_vin lookupComplete (pyUpper "1hgcm82633a004352") "ann") ∧
    Status.errorLength ∉
      (get_vin lookupComplete (pyUpper "1hgcm82633a004352") "ann").statuses ∧
    Status.errorChars ∉
      (get_vin lookupComplete (pyUpper "1hgcm82633a004352") "ann").statuses ∧
    (get_vin lookupComplete (pyUpper "1hgcm82633a004352") "ann").lookupCalls = 1 :=
  c9_normalized_before_validation lookupComplete "ann" "  " "1hgcm82633a004352" " "
    (by decide) (by decide) (by decide) (by decide)

/-- C10: if the Decode VIN button is clicked while the stripped VIN input
is empty, `main` shows the please-enter-a-VIN error and invokes neither
`get_vin` nor the external lookup. -/
theorem c10_empty_input_error (lookup : Lookup) (raw name : String)
    (h : pyStrip raw = "") :
    mainDecode lookup raw name = .emptyVinError ∧
    mainLookupCalls (mainDecode lookup raw name) = 0 := by
  have hn : mainVinNormalize raw = "" := by
    unfold mainVinNormalize
    rw [h]
    rfl
  have heq : mainDecode lookup raw name = .emptyVinError := by
    unfold mainDecode
    rw [if_neg (by simp [hn])]
  exact ⟨heq, by rw [heq]; rfl⟩

/-- Witness for C10 at a whitespace-only input. -/
theorem c10_witness :
    mainDecode lookupComplete "   " "ann" = .emptyVinError ∧
    mainLookupCalls (mainDecode lookupComplete "   " "ann") = 0 :=
  c10_empty_input_error lookupComplete "   " "ann" (by decide)

end VinDecoder
